import Mathlib

/-!
Shallow embedding of the slot-booking and payment-reconciliation core of the
s30mocks backend (Node/Express + Mongoose controllers), together with proofs
checking the natural-language specification against the code.

Entities (Mongoose documents) are modelled as Lean structures; the Mongo
database is a `DB` record of lists of documents; `findById`/`findOne` become
`List.find?`; `doc.save()` becomes replacing (or appending) the document with
the matching `id` in the corresponding list.  Each Express handler becomes a
pure function from the request data and the current `DB` to a
response-constructor (one constructor per `res.status(...).json(...)` branch
of the source) paired with the updated `DB`.  Dates are `Int` milliseconds
since the epoch, as in JavaScript; `new Date()` becomes an explicit `now`
parameter.  Fields the JavaScript code may leave `undefined` are `Option`s.
-/

namespace S30

/-- `interviewType` enum of the Mongoose schemas: `['DSA', 'System Design']`. -/
inductive InterviewType where
  | DSA
  | SystemDesign
deriving DecidableEq, Repr

/-- `status` enum of the Interview schema:
`['scheduled', 'in-progress', 'completed', 'cancelled']`. -/
inductive IStatus where
  | scheduled
  | inProgress
  | completed
  | cancelled
deriving DecidableEq, Repr

/-- `status` enum of the Payment schema:
`['pending', 'submitted', 'verified', 'rejected', 'refunded']`. -/
inductive PStatus where
  | pending
  | submitted
  | verified
  | rejected
  | refunded
deriving DecidableEq, Repr

/-- `paymentStatus` enum carried on the Interview document itself
(`['pending', 'paid', 'refunded']`, default `'pending'`).  This is a separate
field from the linked Payment document's `status`. -/
inductive LegacyPayStatus where
  | pending
  | paid
  | refunded
deriving DecidableEq, Repr

/-- `role` enum of the User schema. -/
inductive Role where
  | candidate
  | interviewer
  | admin
deriving DecidableEq, Repr

/-- User document (`models/User`), restricted to the fields the booking and
payment controllers read.  `upiId`/`qrCodeUrl` are `none` when the field is
missing or empty (both are falsy in the JavaScript checks). -/
structure User where
  id : Nat
  email : String
  role : Role
  upiId : Option String
  qrCodeUrl : Option String
  defaultMeetingLink : Option String
deriving DecidableEq, Repr

/-- InterviewSlot document (`models/InterviewSlot`).  `interviewType` is
optional because `createSlotsFromSheet` constructs slots without it (the
schema then rejects the save). -/
structure Slot where
  id : Nat
  interviewer : Nat
  startTime : Int
  endTime : Int
  interviewType : Option InterviewType
  isBooked : Bool
  interview : Option Nat
  createdBy : Option Nat
deriving DecidableEq, Repr

/-- Interview document (`models/Interview` — the repository's only Interview
schema), restricted to the fields the booking and payment controllers read
and write.  The schema is strict and has **no `slot` (or `timeZone`) path**:
the `slot: slot._id` value the booking handlers pass to the constructor is
dropped at save, so a persisted interview never references a slot and
`interview.slot` is always undefined on a loaded document.  `paymentId` is a
`String` path with no `ref`. -/
structure Interview where
  id : Nat
  candidate : Nat
  interviewer : Nat
  interviewType : Option InterviewType
  scheduledDate : Int
  duration : Nat
  price : Option Nat
  currency : String
  status : IStatus
  paymentStatus : LegacyPayStatus
  paymentId : Option Nat
  meetingLink : Option String
deriving DecidableEq, Repr

/-- Payment document (`models/Payment`). -/
structure Payment where
  id : Nat
  interview : Option Nat
  slotId : Option Nat
  isPreBooking : Bool
  paidBy : Nat
  amount : Nat
  upiId : Option String
  qrCodeUrl : Option String
  transactionId : Option String
  transactionScreenshotUrl : Option String
  submittedAt : Option Int
  status : PStatus
  verifiedBy : Option Nat
  verifiedAt : Option Int
deriving DecidableEq, Repr

/-- InterviewPrice document (`models/InterviewPrice`). -/
structure Price where
  interviewType : InterviewType
  price : Nat
  currency : String
deriving DecidableEq, Repr

/-- The Mongo collections the core touches, plus the process-global
`global.reminderJobs` map of `utils/scheduler.js` (modelled as the list of
interview ids that currently have a timer), and a fresh-id counter standing
for Mongo's `_id` generation. -/
structure DB where
  users : List User
  slots : List Slot
  interviews : List Interview
  payments : List Payment
  prices : List Price
  reminderJobs : List Nat
  nextId : Nat
deriving DecidableEq, Repr

/-- `User.findById`. -/
def findUser (db : DB) (uid : Nat) : Option User :=
  db.users.find? (fun u => u.id = uid)

/-- `InterviewSlot.findById`. -/
def findSlot (db : DB) (sid : Nat) : Option Slot :=
  db.slots.find? (fun s => s.id = sid)

/-- `Interview.findById`. -/
def findInterview (db : DB) (iid : Nat) : Option Interview :=
  db.interviews.find? (fun i => i.id = iid)

/-- `Payment.findById`. -/
def findPayment (db : DB) (pid : Nat) : Option Payment :=
  db.payments.find? (fun p => p.id = pid)

/-- `InterviewPrice.findOne({ interviewType })`. -/
def findPrice (db : DB) (t : InterviewType) : Option Price :=
  db.prices.find? (fun pr => pr.interviewType = t)

/-- `slot.save()` on an existing document: replace the document with the same
`_id`. -/
def saveSlot (db : DB) (s : Slot) : DB :=
  { db with slots := db.slots.map (fun x => if x.id = s.id then s else x) }

/-- `interview.save()` on an existing document. -/
def saveInterview (db : DB) (i : Interview) : DB :=
  { db with interviews := db.interviews.map (fun x => if x.id = i.id then i else x) }

/-- `payment.save()` on an existing document. -/
def savePayment (db : DB) (p : Payment) : DB :=
  { db with payments := db.payments.map (fun x => if x.id = p.id then p else x) }

/-- `new Payment({...}).save()`: insert with a fresh `_id`. -/
def insertPayment (db : DB) (mk : Nat → Payment) : Payment × DB :=
  let p := mk db.nextId
  (p, { db with payments := db.payments ++ [p], nextId := db.nextId + 1 })

/-- `new Interview({...}).save()`: insert with a fresh `_id`. -/
def insertInterview (db : DB) (mk : Nat → Interview) : Interview × DB :=
  let i := mk db.nextId
  (i, { db with interviews := db.interviews ++ [i], nextId := db.nextId + 1 })

/-- `transactionId.length > 4 ? transactionId.slice(-4) : transactionId` —
the UPI transaction-id redaction used by both proof-submission handlers. -/
def redactTransactionId (t : String) : String :=
  if t.length > 4 then String.mk ((t.toList.reverse.take 4).reverse) else t

/-! ## utils/scheduler.js -/

/-- `scheduleInterviewReminder(interviewId)`: looks the interview up, skips if
a job is already registered for the id, skips if the reminder time (30 minutes
before `scheduledDate`) is not in the future, otherwise registers the id in
the global job map. -/
def scheduleInterviewReminder (db : DB) (interviewId : Nat) (now : Int) : DB :=
  match findInterview db interviewId with
  | none => db
  | some interview =>
    if interviewId ∈ db.reminderJobs then db
    else
      let reminderTime := interview.scheduledDate - 30 * 60 * 1000
      if reminderTime ≤ now then db
      else { db with reminderJobs := db.reminderJobs ++ [interviewId] }

/-- `cancelInterviewReminder(interviewId)`: clears the timer and removes the
id from the global job map.  (Exported by `utils/scheduler.js`; no controller
in the repository ever calls it.) -/
def cancelInterviewReminder (db : DB) (interviewId : Nat) : DB :=
  { db with reminderJobs := db.reminderJobs.filter (fun j => j ≠ interviewId) }

/-- The `setTimeout` callback registered by `scheduleInterviewReminder`: it
removes its job from the map, re-reads the interview, and skips sending when
the interview no longer exists or is cancelled.  The first component is
`some interviewId` exactly when reminder emails are sent. -/
def fireInterviewReminder (db : DB) (interviewId : Nat) : Option Nat × DB :=
  let db1 := { db with reminderJobs := db.reminderJobs.filter (fun j => j ≠ interviewId) }
  match findInterview db1 interviewId with
  | none => (none, db1)
  | some interview =>
    if interview.status = IStatus.cancelled then (none, db1)
    else (some interviewId, db1)

/-! ## paymentController.verifyPayment -/

/-- Response branches of `verifyPayment`. -/
inductive VerifyRes where
  /-- 404 `'Payment not found'`. -/
  | paymentNotFound
  /-- 404 `'Interview not found'`. -/
  | interviewNotFound
  /-- 403 `'Not authorized to verify payments'`. -/
  | notAuthorized
  /-- `res.json({message: verified ? 'Payment verified successfully' : 'Payment rejected', payment})`. -/
  | ok (verified : Bool)
deriving DecidableEq, Repr

/-- `paymentController.verifyPayment`: looks up the payment and its interview,
authorizes the interviewer of that interview or an admin, then sets the
payment's status to `verified` or `rejected` according to the `verified` flag,
recording `verifiedBy` and `verifiedAt`.  The source performs no check on the
payment's current status. -/
def verifyPayment (db : DB) (userId : Nat) (userRole : Role) (paymentId : Nat)
    (verified : Bool) (now : Int) : VerifyRes × DB :=
  match findPayment db paymentId with
  | none => (.paymentNotFound, db)
  | some payment =>
    let interview? := match payment.interview with
      | none => none
      | some iid => findInterview db iid
    match interview? with
    | none => (.interviewNotFound, db)
    | some interview =>
      if interview.interviewer ≠ userId ∧ userRole ≠ Role.admin then
        (.notAuthorized, db)
      else
        let payment1 := { payment with
          status := if verified then PStatus.verified else PStatus.rejected,
          verifiedBy := some userId,
          verifiedAt := some now }
        (.ok verified, savePayment db payment1)

/-! ## paymentController.submitPaymentProof -/

/-- Response branches of `submitPaymentProof`. -/
inductive SubmitProofRes where
  /-- 404 `'Payment not found'`. -/
  | paymentNotFound
  /-- 403 `'Not authorized'` (interview missing or candidate mismatch). -/
  | notAuthorized
  /-- 500: `uploadToS3(req.file)` throws when no file was uploaded. -/
  | serverError
  /-- `res.json({message, paymentId, status})`. -/
  | ok (paymentId : Nat) (status : PStatus)
deriving DecidableEq, Repr

/-- `paymentController.submitPaymentProof` (proof upload for an existing
interview's payment): stores the redacted transaction id and the screenshot
URL, then sets `payment.status = 'pending'` (the source's comment reads
"Change status to pending after proof is submitted").  `file` is `some url`
when a screenshot was uploaded, with `url` the S3 URL it yields. -/
def submitPaymentProof (db : DB) (userId : Nat) (paymentId : Nat)
    (transactionId : String) (file : Option String) : SubmitProofRes × DB :=
  match findPayment db paymentId with
  | none => (.paymentNotFound, db)
  | some payment =>
    let interview? := match payment.interview with
      | none => none
      | some iid => findInterview db iid
    match interview? with
    | none => (.notAuthorized, db)
    | some interview =>
      if interview.candidate ≠ userId then (.notAuthorized, db)
      else match file with
      | none => (.serverError, db)
      | some url =>
        let payment1 := { payment with
          transactionId := some (redactTransactionId transactionId),
          transactionScreenshotUrl := some url,
          status := PStatus.pending }
        (.ok payment1.id payment1.status, savePayment db payment1)

/-! ## paymentController.createPaymentRequest -/

/-- Response branches of `createPaymentRequest`. -/
inductive CreatePayReqRes where
  /-- 404 `'Interview not found'`. -/
  | interviewNotFound
  /-- 403 `'Not authorized'`. -/
  | notAuthorized
  /-- 400 `'Payment already completed'`. -/
  | alreadyCompleted
  /-- 400 `'Interviewer has not set up UPI payment details yet'`. -/
  | upiNotSetup
  /-- 404 price for the interview type not found. -/
  | priceNotFound
  /-- `res.json({paymentId, upiId, qrCodeUrl, amount, currency})`. -/
  | ok (paymentId : Nat) (amount : Nat)
deriving DecidableEq, Repr

/-- `paymentController.createPaymentRequest` (payment for an existing
interview): rejects only when the interview's linked payment is already
`verified` ("Payment already completed"); otherwise creates a fresh `pending`
payment and repoints `interview.paymentId` at it.  An interview without an
`interviewType` finds no price record. -/
def createPaymentRequest (db : DB) (userId : Nat) (interviewId : Nat) :
    CreatePayReqRes × DB :=
  match findInterview db interviewId with
  | none => (.interviewNotFound, db)
  | some interview =>
    if interview.candidate ≠ userId then (.notAuthorized, db)
    else
      let verifiedAlready :=
        match interview.paymentId with
        | none => false
        | some pid =>
          match findPayment db pid with
          | none => false
          | some p => p.status = PStatus.verified
      if verifiedAlready then (.alreadyCompleted, db)
      else
        match findUser db interview.interviewer with
        | none => (.upiNotSetup, db)
        | some interviewer =>
          if interviewer.upiId.isNone ∨ interviewer.qrCodeUrl.isNone then
            (.upiNotSetup, db)
          else
            let price? := match interview.interviewType with
              | none => none
              | some t => findPrice db t
            match price? with
            | none => (.priceNotFound, db)
            | some priceRecord =>
              let (payment, db1) := insertPayment db (fun pid =>
                { id := pid, interview := some interviewId, slotId := none,
                  isPreBooking := false, paidBy := userId,
                  amount := priceRecord.price, upiId := interviewer.upiId,
                  qrCodeUrl := interviewer.qrCodeUrl, transactionId := none,
                  transactionScreenshotUrl := none, submittedAt := none,
                  status := PStatus.pending, verifiedBy := none,
                  verifiedAt := none })
              let db2 := saveInterview db1 { interview with paymentId := some payment.id }
              (.ok payment.id payment.amount, db2)

/-! ## paymentController.createPreBookingPayment -/

/-- Response branches of `createPreBookingPayment`. -/
inductive CreatePreBookRes where
  /-- 404 `'Slot not found'`. -/
  | slotNotFound
  /-- 400 `'This slot is already booked'`. -/
  | slotBooked
  /-- 400 `'Interviewer has not set up UPI payment details yet'`. -/
  | upiNotSetup
  /-- 404 price for the interview type not found. -/
  | priceNotFound
  /-- `res.json({paymentId, upiId, qrCodeUrl, amount, currency})`. -/
  | ok (paymentId : Nat) (amount : Nat)
deriving DecidableEq, Repr

/-- `paymentController.createPreBookingPayment` (Flow A step 1): verifies the
slot exists and is unbooked and the slot's interviewer has UPI details, then
creates a `pending` payment with `isPreBooking = true` and `slotId` set, not
linked to any interview. -/
def createPreBookingPayment (db : DB) (userId : Nat) (slotId : Nat) :
    CreatePreBookRes × DB :=
  match findSlot db slotId with
  | none => (.slotNotFound, db)
  | some slot =>
    if slot.isBooked then (.slotBooked, db)
    else
      match findUser db slot.interviewer with
      | none => (.upiNotSetup, db)
      | some interviewer =>
        if interviewer.upiId.isNone ∨ interviewer.qrCodeUrl.isNone then
          (.upiNotSetup, db)
        else
          let price? := match slot.interviewType with
            | none => none
            | some t => findPrice db t
          match price? with
          | none => (.priceNotFound, db)
          | some priceRecord =>
            let (payment, db1) := insertPayment db (fun pid =>
              { id := pid, interview := none, slotId := some slotId,
                isPreBooking := true, paidBy := userId,
                amount := priceRecord.price, upiId := interviewer.upiId,
                qrCodeUrl := interviewer.qrCodeUrl, transactionId := none,
                transactionScreenshotUrl := none, submittedAt := none,
                status := PStatus.pending, verifiedBy := none,
                verifiedAt := none })
            (.ok payment.id payment.amount, db1)

/-! ## paymentController.submitPreBookingPayment -/

/-- Response branches of `submitPreBookingPayment`. -/
inductive SubmitPreBookRes where
  /-- 404 `'Payment not found'`. -/
  | paymentNotFound
  /-- 403 `'Not authorized'`. -/
  | notAuthorized
  /-- 404 `'Slot not found'`. -/
  | slotNotFound
  /-- 400 `'This slot has already been booked'`. -/
  | slotAlreadyBooked
  /-- 400 `'Payment screenshot is required'`. -/
  | screenshotRequired
  /-- `res.json({message, interviewId})`. -/
  | ok (interviewId : Nat)
deriving DecidableEq, Repr

/-- `paymentController.submitPreBookingPayment` (Flow A step 2), with an
explicit interference point.  The handler reads the payment and the slot,
checks `slot.isBooked`, and then `await`s the S3 upload; while it is
suspended, other requests may run against the shared database (`interfere`).
When it resumes it keeps its stale `payment` and `slot` documents and performs
the writes of the source in order: save the submitted payment, insert the
interview, re-link the payment, save the slot with `isBooked = true`
(unconditionally overwriting whatever the slot now holds), and schedule the
reminder.  `submitPreBookingPayment` below is the sequential (no-interference)
run. -/
def submitPreBookingPaymentCore (db0 : DB) (interfere : DB → DB) (userId : Nat)
    (paymentId : Nat) (transactionId : String) (slotId : Nat)
    (file : Option String) (now : Int) : SubmitPreBookRes × DB :=
  match findPayment db0 paymentId with
  | none => (.paymentNotFound, db0)
  | some payment =>
    if payment.paidBy ≠ userId then (.notAuthorized, db0)
    else match findSlot db0 slotId with
    | none => (.slotNotFound, db0)
    | some slot =>
      if slot.isBooked then (.slotAlreadyBooked, db0)
      else match file with
      | none => (.screenshotRequired, db0)
      | some url =>
        let db := interfere db0
        let payment1 := { payment with
          transactionId := some (redactTransactionId transactionId),
          transactionScreenshotUrl := some url,
          status := PStatus.submitted,
          submittedAt := some now }
        let db1 := savePayment db payment1
        let duration := if slot.interviewType = some InterviewType.DSA then 40 else 50
        let interviewer? := findUser db1 slot.interviewer
        let (interview, db2) := insertInterview db1 (fun iid =>
          { id := iid, candidate := userId, interviewer := slot.interviewer,
            interviewType := slot.interviewType, scheduledDate := slot.startTime,
            duration := duration, price := some payment.amount, currency := "INR",
            status := IStatus.scheduled, paymentStatus := LegacyPayStatus.pending,
            paymentId := some payment1.id,
            meetingLink := some ((interviewer?.bind (fun u => u.defaultMeetingLink)).getD
              "ping support team in whatsapp for link") })
        let payment2 := { payment1 with interview := some interview.id, isPreBooking := false }
        let db3 := savePayment db2 payment2
        let db4 := saveSlot db3 { slot with isBooked := true, interview := some interview.id }
        let db5 := scheduleInterviewReminder db4 interview.id now
        (.ok interview.id, db5)

/-- `submitPreBookingPayment` run without concurrent interference (a single
request executing alone). -/
def submitPreBookingPayment (db : DB) (userId : Nat) (paymentId : Nat)
    (transactionId : String) (slotId : Nat) (file : Option String) (now : Int) :
    SubmitPreBookRes × DB :=
  submitPreBookingPaymentCore db (fun d => d) userId paymentId transactionId slotId file now

/-! ## interviewController.cancelInterview -/

/-- Response branches of `cancelInterview`. -/
inductive CancelRes where
  /-- 404 `'Interview not found'`. -/
  | interviewNotFound
  /-- 403 `'Not authorized to cancel this interview'`. -/
  | notAuthorized
  /-- 400 `'Only scheduled interviews can be cancelled'`. -/
  | invalidState
  /-- `res.json({message: 'Interview cancelled successfully', interview})`. -/
  | ok
deriving DecidableEq, Repr

/-- `interviewController.cancelInterview`: only the interview's candidate or
an admin may cancel, and only while `status = 'scheduled'`.  On success the
interview's status becomes `cancelled` and nothing else changes.  The
source's `if (interview.slot)` slot-release branch is dead code: the
Interview schema has no `slot` path, so `interview.slot` is always undefined
on the loaded document and no slot is ever saved with `isBooked = false`;
`cancelInterviewReminder` is likewise never invoked. -/
def cancelInterview (db : DB) (userId : Nat) (userRole : Role)
    (interviewId : Nat) : CancelRes × DB :=
  match findInterview db interviewId with
  | none => (.interviewNotFound, db)
  | some interview =>
    if interview.candidate ≠ userId ∧ userRole ≠ Role.admin then
      (.notAuthorized, db)
    else if interview.status ≠ IStatus.scheduled then
      (.invalidState, db)
    else
      (.ok, saveInterview db { interview with status := IStatus.cancelled })

/-! ## paymentController.getPaymentByInterviewId -/

/-- Response branches of `getPaymentByInterviewId`. -/
inductive GetPayRes where
  /-- 404 `'Interview not found'`. -/
  | interviewNotFound
  /-- 403 `'Not authorized'`. -/
  | notAuthorized
  /-- `res.json(payment)`. -/
  | payment (p : Payment)
  /-- `res.json({status: 'pending', interview: interviewId, exists: false})` —
  the synthetic body returned when the interview has no payment record. -/
  | syntheticPending (status : PStatus) (interview : Nat) (existsFlag : Bool)
deriving DecidableEq, Repr

/-- `paymentController.getPaymentByInterviewId`: 404 only when the interview
itself is missing; the candidate, the interviewer, or an admin may read; when
no payment references the interview it answers with the synthetic
`{status: 'pending', interview, exists: false}` body instead of a 404. -/
def getPaymentByInterviewId (db : DB) (userId : Nat) (userRole : Role)
    (interviewId : Nat) : GetPayRes :=
  match findInterview db interviewId with
  | none => .interviewNotFound
  | some interview =>
    if interview.candidate ≠ userId ∧ interview.interviewer ≠ userId ∧
        userRole ≠ Role.admin then
      .notAuthorized
    else
      match db.payments.find? (fun p => p.interview = some interviewId) with
      | none => .syntheticPending PStatus.pending interviewId false
      | some p => .payment p

/-! ## slotController.bookSlot — both observed variants

The repository carries two versions of the slot controller's `bookSlot`.  The
earlier one (part_007) gates direct booking on the *interview document's* own
`paymentStatus` field; the later one (part_008) populates each interview's
linked payment and gates on the payment record's status (or its absence), and
additionally requires `paymentSubmitted=true`. -/

/-- Response branches shared by the two `bookSlot` variants. -/
inductive BookRes where
  /-- 404 `'Slot not found'`. -/
  | slotNotFound
  /-- 400 `'Slot is already booked'`. -/
  | slotAlreadyBooked
  /-- 404 price for the interview type not found. -/
  | priceNotFound
  /-- 400 `'You have pending payments for previous interviews. ...'` with the
  offending interviews in the response body. -/
  | pendingPayments (blocking : List Nat)
  /-- 400 `'Payment is required before booking a slot. ...'` (part_008 only). -/
  | paymentRequired
  /-- `res.json({message: 'Slot booked successfully', interview, slot})`. -/
  | booked (interviewId : Nat)
deriving DecidableEq, Repr

/-- part_007 `bookSlot`: the pending-payment gate is
`Interview.find({candidate, status: {$ne: 'cancelled'}, paymentStatus: 'pending'})`
— it consults only the interview document's own `paymentStatus` field, never
the linked Payment record.  `randLink` stands for the `Math.random()` suffix
of the generated meeting link. -/
def bookSlot7 (db : DB) (userId : Nat) (slotId : Nat) (randLink : String)
    (now : Int) : BookRes × DB :=
  match findSlot db slotId with
  | none => (.slotNotFound, db)
  | some slot =>
    if slot.isBooked then (.slotAlreadyBooked, db)
    else
      let price? := match slot.interviewType with
        | none => none
        | some t => findPrice db t
      match price? with
      | none => (.priceNotFound, db)
      | some priceRecord =>
        let pending := db.interviews.filter (fun i =>
          i.candidate = userId ∧ i.status ≠ IStatus.cancelled ∧
          i.paymentStatus = LegacyPayStatus.pending)
        if pending.isEmpty then
          let duration := if slot.interviewType = some InterviewType.DSA then 40 else 50
          let (interview, db1) := insertInterview db (fun iid =>
            { id := iid, candidate := userId, interviewer := slot.interviewer,
              interviewType := slot.interviewType, scheduledDate := slot.startTime,
              duration := duration, price := some priceRecord.price,
              currency := priceRecord.currency, status := IStatus.scheduled,
              paymentStatus := LegacyPayStatus.pending, paymentId := none,
              meetingLink := some ("https://meet.google.com/" ++ randLink) })
          let db2 := saveSlot db1 { slot with isBooked := true, interview := some interview.id }
          (.booked interview.id, scheduleInterviewReminder db2 interview.id now)
        else
          (.pendingPayments (pending.map (fun i => i.id)), db)

/-- part_008 `bookSlot`: its gate fetches the candidate's non-cancelled
interviews with `.populate('paymentId')` and keeps those where
`!interview.paymentId || ['pending','submitted','rejected'].includes(interview.paymentId.status)`.
Because `Interview.paymentId` is a `String` path with no `ref`, `populate`
cannot resolve it and the raw string stays in place: `interview.paymentId` is
truthy whenever set and `interview.paymentId.status` is undefined, so the
status arm of the filter never fires — an interview blocks exactly when its
`paymentId` is missing.  The handler then requires `paymentSubmitted ===
'true'` before creating the interview and booking the slot. -/
def bookSlot8 (db : DB) (userId : Nat) (slotId : Nat) (paymentSubmitted : Bool)
    (now : Int) : BookRes × DB :=
  match findSlot db slotId with
  | none => (.slotNotFound, db)
  | some slot =>
    if slot.isBooked then (.slotAlreadyBooked, db)
    else
      let price? := match slot.interviewType with
        | none => none
        | some t => findPrice db t
      match price? with
      | none => (.priceNotFound, db)
      | some priceRecord =>
        let candidateInterviews := db.interviews.filter (fun i =>
          i.candidate = userId ∧ i.status ≠ IStatus.cancelled)
        let pending := candidateInterviews.filter (fun i => i.paymentId = none)
        if pending.isEmpty then
          if paymentSubmitted then
            let duration := if slot.interviewType = some InterviewType.DSA then 40 else 50
            let interviewer? := findUser db slot.interviewer
            let (interview, db1) := insertInterview db (fun iid =>
              { id := iid, candidate := userId, interviewer := slot.interviewer,
                interviewType := slot.interviewType, scheduledDate := slot.startTime,
                duration := duration, price := some priceRecord.price,
                currency := priceRecord.currency, status := IStatus.scheduled,
                paymentStatus := LegacyPayStatus.pending, paymentId := none,
                meetingLink := some ((interviewer?.bind (fun u => u.defaultMeetingLink)).getD
                  "ping support team in whatsapp for link") })
            let db2 := saveSlot db1 { slot with isBooked := true, interview := some interview.id }
            (.booked interview.id, scheduleInterviewReminder db2 interview.id now)
          else
            (.paymentRequired, db)
        else
          (.pendingPayments (pending.map (fun i => i.id)), db)

/-! ## Slot creation: createInterviewerSlot, createBatchSlots, createSlotsFromSheet -/

/-- Validation performed by `new InterviewSlot(...).save()`: the schema
requires `interviewType`, and the schema's pre-save hook enforces the 40/50
minute duration with a one-minute tolerance.  Durations are compared in
milliseconds (`|Δms − d·60000| ≤ 60000` is exactly the source's
`Math.abs(Δms/60000 − d) ≤ 1` over the reals). -/
def slotSaveValid (s : Slot) : Bool :=
  match s.interviewType with
  | none => false
  | some InterviewType.DSA => ((s.endTime - s.startTime) - 40 * 60000).natAbs ≤ 60000
  | some InterviewType.SystemDesign => ((s.endTime - s.startTime) - 50 * 60000).natAbs ≤ 60000

/-- Response branches of `createInterviewerSlot`. -/
inductive CreateSlotRes where
  /-- 400: missing start/end/type, type outside the enum, or unparsable date. -/
  | invalidInput
  /-- 403 `'Only interviewers can create slots'`. -/
  | notInterviewer
  /-- 400 `'Start time must be in the future'`. -/
  | startInPast
  /-- 400 `'End time must be after start time'`. -/
  | endNotAfterStart
  /-- 400 slot duration does not match the interview type. -/
  | badDuration
  /-- 400 `'Slot overlaps with an existing slot'`. -/
  | overlap
  /-- 201 `{message: 'Slot created successfully', slot}`. -/
  | created (slotId : Nat)
deriving DecidableEq, Repr

/-- `slotController.createInterviewerSlot` (part_008 variant; part_007 adds a
full-hour start check upstream and is otherwise identical): validates the
times and duration, then rejects with the overlap error when the interviewer
already owns a slot with `startTime < end ∧ endTime > start`.  Absent or
unparsable request fields are `none`. -/
def createInterviewerSlot (db : DB) (userId : Nat) (userRole : Role)
    (startTime? endTime? : Option Int) (interviewType? : Option InterviewType)
    (now : Int) : CreateSlotRes × DB :=
  match startTime?, endTime?, interviewType? with
  | some start, some endT, some itype =>
    if userRole ≠ Role.interviewer ∧ userRole ≠ Role.admin then
      (.notInterviewer, db)
    else if start < now then (.startInPast, db)
    else if endT ≤ start then (.endNotAfterStart, db)
    else if itype = InterviewType.DSA ∧ ((endT - start) - 40 * 60000).natAbs > 60000 then
      (.badDuration, db)
    else if itype = InterviewType.SystemDesign ∧ ((endT - start) - 50 * 60000).natAbs > 60000 then
      (.badDuration, db)
    else if db.slots.any (fun s => s.interviewer = userId ∧ s.startTime < endT ∧ s.endTime > start) then
      (.overlap, db)
    else
      let s : Slot := { id := db.nextId, interviewer := userId, startTime := start,
                        endTime := endT, interviewType := some itype,
                        isBooked := false, interview := none, createdBy := some userId }
      (.created s.id, { db with slots := db.slots ++ [s], nextId := db.nextId + 1 })
  | _, _, _ => (.invalidInput, db)

/-- Response branches of `createBatchSlots`. -/
inductive BatchRes where
  /-- 400: missing interview type or empty slots array, or type outside the enum. -/
  | invalidInput
  /-- 403 `'Only interviewers can create slots'`. -/
  | notInterviewer
  /-- 400: unparsable time, start not before end, or slot not in the future. -/
  | badTimes
  /-- 500: a `newSlot.save()` threw (the schema duration hook rejected it);
  slots created earlier in the loop remain saved. -/
  | serverError
  /-- 201 `'Successfully created N slots'`. -/
  | created (n : Nat)
deriving DecidableEq, Repr

/-- The creation loop of `createBatchSlots`: each slot is saved without any
overlap check; a save rejected by the schema's duration hook throws, aborting
the loop with the earlier slots left in place. -/
def batchCreateLoop (itype : InterviewType) (userId : Nat) :
    DB → List (Int × Int) → Nat → BatchRes × DB
  | db, [], n => (BatchRes.created n, db)
  | db, (st, en) :: rest, n =>
    let s : Slot := { id := db.nextId, interviewer := userId, startTime := st,
                      endTime := en, interviewType := some itype,
                      isBooked := false, interview := none, createdBy := none }
    if slotSaveValid s then
      batchCreateLoop itype userId
        { db with slots := db.slots ++ [s], nextId := db.nextId + 1 } rest (n + 1)
    else
      (BatchRes.serverError, db)

/-- `slotController.createBatchSlots` (identical in both controller variants):
validates that every entry parses, starts before it ends, and lies in the
future — it performs no overlap check and no duration check (the schema hook
fires only at save time) — then saves every slot. -/
def createBatchSlots (db : DB) (userId : Nat) (userRole : Role)
    (interviewType? : Option InterviewType) (slotTimes : List (Int × Int))
    (now : Int) : BatchRes × DB :=
  match interviewType? with
  | none => (.invalidInput, db)
  | some itype =>
    if slotTimes.isEmpty then (.invalidInput, db)
    else if userRole ≠ Role.interviewer ∧ userRole ≠ Role.admin then
      (.notInterviewer, db)
    else if slotTimes.any (fun t => t.2 ≤ t.1) then (.badTimes, db)
    else if slotTimes.any (fun t => t.1 ≤ now) then (.badTimes, db)
    else batchCreateLoop itype userId db slotTimes 0

/-- One row of the parsed CSV handed to `createSlotsFromSheet`; `none` fields
stand for missing values or unparsable dates. -/
structure SheetRecord where
  email : Option String
  start : Option Int
  endT : Option Int
deriving DecidableEq, Repr

/-- The per-record loop of `createSlotsFromSheet`.  For each record it finds
the interviewer by email, rejects only an *exact* `(startTime, endTime)`
duplicate for that interviewer, and otherwise constructs a slot **without an
`interviewType`** — so the schema's required-field validation rejects every
save and the record is pushed onto the error list.  Returns
`(createdCount, errorCount)`. -/
def sheetCreateLoop (userId : Nat) :
    DB → List SheetRecord → Nat → Nat → (Nat × Nat) × DB
  | db, [], created, errs => ((created, errs), db)
  | db, r :: rest, created, errs =>
    match r.email, r.start, r.endT with
    | some email, some st, some en =>
      match db.users.find? (fun u => u.email = email ∧ u.role = Role.interviewer) with
      | none => sheetCreateLoop userId db rest created (errs + 1)
      | some interviewer =>
        if db.slots.any (fun s =>
            s.interviewer = interviewer.id ∧ s.startTime = st ∧ s.endTime = en) then
          sheetCreateLoop userId db rest created (errs + 1)
        else
          let s : Slot := { id := db.nextId, interviewer := interviewer.id,
                            startTime := st, endTime := en, interviewType := none,
                            isBooked := false, interview := none,
                            createdBy := some userId }
          if slotSaveValid s then
            sheetCreateLoop userId
              { db with slots := db.slots ++ [s], nextId := db.nextId + 1 }
              rest (created + 1) errs
          else
            sheetCreateLoop userId db rest created (errs + 1)
    | _, _, _ => sheetCreateLoop userId db rest created (errs + 1)

/-- `slotController.createSlotsFromSheet`: processes every record through
`sheetCreateLoop` and answers 201 with the created count and the error list
regardless of per-record failures. -/
def createSlotsFromSheet (db : DB) (userId : Nat) (records : List SheetRecord) :
    (Nat × Nat) × DB :=
  sheetCreateLoop userId db records 0 0

/-! ## Concrete fixtures

Small databases used to evaluate the operations at concrete inputs. -/

/-- A candidate. -/
def candUser : User :=
  { id := 1, email := "cand@example.com", role := Role.candidate,
    upiId := none, qrCodeUrl := none, defaultMeetingLink := none }

/-- An interviewer with UPI collection details configured. -/
def intvUser : User :=
  { id := 2, email := "intv@example.com", role := Role.interviewer,
    upiId := some "intv@upi", qrCodeUrl := some "qr.png",
    defaultMeetingLink := some "https://zoom.example/j/1" }

/-- A second candidate. -/
def cand2User : User :=
  { id := 4, email := "cand2@example.com", role := Role.candidate,
    upiId := none, qrCodeUrl := none, defaultMeetingLink := none }

/-- Price record for DSA interviews. -/
def dsaPrice : Price :=
  { interviewType := InterviewType.DSA, price := 1000, currency := "INR" }

/-- An unbooked 40-minute DSA slot of `intvUser`. -/
def baseSlot : Slot :=
  { id := 100, interviewer := 2, startTime := 10000000, endTime := 12400000,
    interviewType := some InterviewType.DSA, isBooked := false,
    interview := none, createdBy := some 2 }

/-- A scheduled interview of `candUser` with `intvUser`, linked to payment 60. -/
def c5int : Interview :=
  { id := 50, candidate := 1, interviewer := 2,
    interviewType := some InterviewType.DSA, scheduledDate := 10000000,
    duration := 40, price := some 1000, currency := "INR",
    status := IStatus.scheduled, paymentStatus := LegacyPayStatus.pending,
    paymentId := some 60, meetingLink := none }

/-- A payment for interview 50 still in `pending` state (proof not submitted). -/
def c5pay : Payment :=
  { id := 60, interview := some 50, slotId := none, isPreBooking := false,
    paidBy := 1, amount := 1000, upiId := none, qrCodeUrl := none,
    transactionId := none, transactionScreenshotUrl := none,
    submittedAt := none, status := PStatus.pending, verifiedBy := none,
    verifiedAt := none }

/-- Database with a `pending` (never submitted) payment for interview 50. -/
def c5db : DB :=
  { users := [candUser, intvUser], slots := [], interviews := [c5int],
    payments := [c5pay], prices := [dsaPrice], reminderJobs := [],
    nextId := 300 }

/-- Interview 50 with no payment record at all. -/
def c10int : Interview :=
  { c5int with paymentId := none }

/-- Database where interview 50 exists but no payment references it. -/
def c10db : DB :=
  { users := [candUser, intvUser], slots := [], interviews := [c10int],
    payments := [], prices := [dsaPrice], reminderJobs := [], nextId := 300 }

/-- A scheduled interview that was booked from slot 100 (the slot references
the interview; the interview document itself carries no slot reference, the
schema having no such path). -/
def c7int : Interview :=
  { c5int with paymentId := none }

/-- Slot 100 booked and referencing interview 50. -/
def c7slot : Slot :=
  { baseSlot with isBooked := true, interview := some 50 }

/-- Database with a scheduled slot-booked interview. -/
def c7db : DB :=
  { users := [candUser, intvUser], slots := [c7slot], interviews := [c7int],
    payments := [], prices := [dsaPrice], reminderJobs := [], nextId := 300 }

/-- A cancelled interview (id 51). -/
def c9cancelled : Interview :=
  { c5int with id := 51, paymentId := none, status := IStatus.cancelled }

/-- Database with a scheduled interview 50 whose reminder job is registered,
and a cancelled interview 51. -/
def c9db : DB :=
  { users := [candUser, intvUser], slots := [],
    interviews := [{ c5int with paymentId := none }, c9cancelled],
    payments := [], prices := [dsaPrice], reminderJobs := [50], nextId := 300 }

/-- Database whose only slot is `baseSlot` (interviewer 2, 10000000–12400000). -/
def c8db : DB :=
  { users := [candUser, intvUser], slots := [baseSlot], interviews := [],
    payments := [], prices := [dsaPrice], reminderJobs := [], nextId := 300 }

/-- Non-cancelled interview of candidate 1 whose own `paymentStatus` field is
`paid` while its linked payment 60 is still `submitted` (unresolved). -/
def c2int : Interview :=
  { c5int with paymentStatus := LegacyPayStatus.paid }

/-- Payment 60 with proof submitted but not yet verified. -/
def c2pay : Payment :=
  { c5pay with status := PStatus.submitted }

/-- Database where candidate 1 holds a non-cancelled interview with a
`submitted` (unresolved) payment, and slot 100 is available. -/
def c2db : DB :=
  { users := [candUser, intvUser], slots := [baseSlot], interviews := [c2int],
    payments := [c2pay], prices := [dsaPrice], reminderJobs := [], nextId := 300 }

/-- Database where candidate 1 holds a non-cancelled interview with no
`paymentId` at all, and slot 100 is available. -/
def c2missingDb : DB :=
  { users := [candUser, intvUser], slots := [baseSlot], interviews := [c10int],
    payments := [], prices := [dsaPrice], reminderJobs := [], nextId := 300 }

/-- Pre-booking payment of candidate 1 against slot 100. -/
def c1pay1 : Payment :=
  { id := 10, interview := none, slotId := some 100, isPreBooking := true,
    paidBy := 1, amount := 1000, upiId := some "intv@upi",
    qrCodeUrl := some "qr.png", transactionId := none,
    transactionScreenshotUrl := none, submittedAt := none,
    status := PStatus.pending, verifiedBy := none, verifiedAt := none }

/-- Pre-booking payment of candidate 4 against the same slot 100. -/
def c1pay2 : Payment :=
  { c1pay1 with id := 11, paidBy := 4 }

/-- Database with two candidates holding pre-booking payments for the same
unbooked slot 100. -/
def c1db : DB :=
  { users := [candUser, intvUser, cand2User], slots := [baseSlot],
    interviews := [], payments := [c1pay1, c1pay2], prices := [dsaPrice],
    reminderJobs := [], nextId := 200 }

/-- The concurrent request that runs while candidate 1's
`submitPreBookingPayment` is suspended at its S3-upload `await`: candidate 4
completes their own pre-booking payment for the same slot. -/
def c1Interfere : DB → DB :=
  fun d => (submitPreBookingPayment d 4 11 "TX222222" 100 (some "u2.png") 0).2

/-- `c1db` with slot 100 already booked. -/
def c1BookedDb : DB :=
  { c1db with slots := [{ baseSlot with isBooked := true }] }

/-- Initial database for the pre-booking round trip: one interviewer, one
candidate, one slot, one price, and nothing else. -/
def roundTripDB (cand intv : User) (s : Slot) (pr : Price) (n : Nat) : DB :=
  { users := [intv, cand], slots := [s], interviews := [], payments := [],
    prices := [pr], reminderJobs := [], nextId := n }

/-- The pending pre-booking payment that `createPreBookingPayment` creates on
`roundTripDB`. -/
def roundTripPrePayment (cand intv : User) (s : Slot) (pr : Price) (n : Nat) :
    Payment :=
  { id := n, interview := none, slotId := some s.id, isPreBooking := true,
    paidBy := cand.id, amount := pr.price, upiId := intv.upiId,
    qrCodeUrl := intv.qrCodeUrl, transactionId := none,
    transactionScreenshotUrl := none, submittedAt := none,
    status := PStatus.pending, verifiedBy := none, verifiedAt := none }

/-- `roundTripDB` after `createPreBookingPayment` has run. -/
def roundTripDB1 (cand intv : User) (s : Slot) (pr : Price) (n : Nat) : DB :=
  { users := [intv, cand], slots := [s], interviews := [],
    payments := [roundTripPrePayment cand intv s pr n],
    prices := [pr], reminderJobs := [], nextId := n + 1 }

/-! ## Theorems -/

/-- C10: for an existing interview read by an authorized user with no payment
record, `getPaymentByInterviewId` answers the synthetic
`{status: 'pending', interview, exists: false}` body rather than a 404, and
the 404 interview-not-found answer occurs only when the interview itself is
missing. -/
theorem getPaymentByInterviewId_noPayment_synthetic
    (db : DB) (userId : Nat) (userRole : Role) (interviewId : Nat)
    (i : Interview)
    (hfound : findInterview db interviewId = some i)
    (hauth : i.candidate = userId ∨ i.interviewer = userId ∨ userRole = Role.admin)
    (hnopay : db.payments.find? (fun p => p.interview = some interviewId) = none) :
    getPaymentByInterviewId db userId userRole interviewId =
      GetPayRes.syntheticPending PStatus.pending interviewId false ∧
    ∀ (db2 : DB) (u2 : Nat) (r2 : Role) (i2 : Nat),
      getPaymentByInterviewId db2 u2 r2 i2 = GetPayRes.interviewNotFound →
      findInterview db2 i2 = none := by
  constructor
  · unfold getPaymentByInterviewId
    rw [hfound]
    have hcond : ¬(i.candidate ≠ userId ∧ i.interviewer ≠ userId ∧ userRole ≠ Role.admin) := by
      tauto
    simp only [hcond, if_false, hnopay]
  · intro db2 u2 r2 i2 hres
    unfold getPaymentByInterviewId at hres
    cases hfi : findInterview db2 i2 with
    | none => rfl
    | some j =>
      rw [hfi] at hres
      dsimp only at hres
      by_cases hc : (j.candidate ≠ u2 ∧ j.interviewer ≠ u2 ∧ r2 ≠ Role.admin)
      · rw [if_pos hc] at hres
        exact absurd hres (by simp)
      · rw [if_neg hc] at hres
        cases hfp : db2.payments.find? (fun p => p.interview = some i2) <;>
          rw [hfp] at hres <;> exact absurd hres (by simp)

/-- C10 witness: concrete run on `c10db`. -/
theorem getPaymentByInterviewId_noPayment_synthetic_witness :
    getPaymentByInterviewId c10db 1 Role.candidate 50 =
      GetPayRes.syntheticPending PStatus.pending 50 false :=
  (getPaymentByInterviewId_noPayment_synthetic c10db 1 Role.candidate 50 c10int
    (by decide) (Or.inl (by decide)) (by decide)).1

/-- C5 counterexample: payment 60 in `c5db` has status `pending` (not
`submitted`), yet `verifyPayment` succeeds and moves it to `verified` instead
of failing with an invalid-state error and leaving it unchanged. -/
theorem verifyPayment_nonSubmitted_counterexample :
    (findPayment c5db 60).map (fun p => p.status) = some PStatus.pending ∧
    PStatus.pending ≠ PStatus.submitted ∧
    (verifyPayment c5db 2 Role.interviewer 60 true 7).1 = VerifyRes.ok true ∧
    ((verifyPayment c5db 2 Role.interviewer 60 true 7).2.payments.find?
        (fun p => p.id = 60)).map (fun p => p.status) = some PStatus.verified := by
  decide

/-- C5 amended: `verifyPayment` performs no check on the payment's current
status: for any found payment whose interview exists and whose caller is that
interview's interviewer or an admin, it unconditionally overwrites the status
with `verified` (approved) or `rejected` (not approved), recording the
verifier and the timestamp. -/
theorem verifyPayment_amended
    (db : DB) (userId : Nat) (userRole : Role) (paymentId : Nat)
    (verified : Bool) (now : Int) (p : Payment) (iid : Nat) (i : Interview)
    (hp : findPayment db paymentId = some p)
    (hpi : p.interview = some iid)
    (hi : findInterview db iid = some i)
    (hauth : i.interviewer = userId ∨ userRole = Role.admin) :
    verifyPayment db userId userRole paymentId verified now =
      (VerifyRes.ok verified,
       savePayment db { p with
         status := if verified then PStatus.verified else PStatus.rejected,
         verifiedBy := some userId, verifiedAt := some now }) := by
  unfold verifyPayment
  rw [hp]
  dsimp only
  rw [hpi]
  dsimp only
  rw [hi]
  dsimp only
  have hcond : ¬(i.interviewer ≠ userId ∧ userRole ≠ Role.admin) := by tauto
  rw [if_neg hcond]

/-- C5 amended witness: concrete rejection run on `c5db`. -/
theorem verifyPayment_amended_witness :
    verifyPayment c5db 2 Role.interviewer 60 false 7 =
      (VerifyRes.ok false,
       savePayment c5db { c5pay with
         status := PStatus.rejected,
         verifiedBy := some 2, verifiedAt := some 7 }) :=
  verifyPayment_amended c5db 2 Role.interviewer 60 false 7 c5pay 50 c5int
    (by decide) (by decide) (by decide) (Or.inl (by decide))

/-- C7 counterexample: cancelling scheduled interview 50, whose booking slot
100 is booked and references it, succeeds but leaves the slot exactly as it
was — `isBooked` is not reset to false and the `interview` reference is not
cleared, because the Interview schema has no `slot` path and the handler's
slot-release branch is dead code. -/
theorem cancelInterview_slotNotReleased_counterexample :
    (cancelInterview c7db 1 Role.candidate 50).1 = CancelRes.ok ∧
    ((cancelInterview c7db 1 Role.candidate 50).2.interviews.find?
        (fun i => i.id = 50)).map (fun i => i.status) = some IStatus.cancelled ∧
    ((cancelInterview c7db 1 Role.candidate 50).2.slots.find?
        (fun s => s.id = 100)).map (fun s => (s.isBooked, s.interview)) =
      some (true, some 50) := by
  decide

/-- C7 amended: `cancelInterview` succeeds only on a `scheduled` interview; a
non-scheduled interview yields the invalid-state error with the database
untouched; on success the interview's status becomes `cancelled` and nothing
else changes — in particular no slot is ever released (the Interview schema
has no `slot` path, so the source's slot-release branch is dead), and the
slots collection is unchanged on every path. -/
theorem cancelInterview_amended
    (db : DB) (userId : Nat) (userRole : Role) (interviewId : Nat)
    (i : Interview)
    (hi : findInterview db interviewId = some i)
    (hauth : i.candidate = userId ∨ userRole = Role.admin) :
    (i.status ≠ IStatus.scheduled →
      cancelInterview db userId userRole interviewId = (CancelRes.invalidState, db)) ∧
    (i.status = IStatus.scheduled →
      cancelInterview db userId userRole interviewId =
        (CancelRes.ok, saveInterview db { i with status := IStatus.cancelled })) ∧
    (cancelInterview db userId userRole interviewId).2.slots = db.slots := by
  have hcond : ¬(i.candidate ≠ userId ∧ userRole ≠ Role.admin) := by tauto
  refine ⟨?_, ?_, ?_⟩
  · intro hst
    unfold cancelInterview
    rw [hi]
    dsimp only
    rw [if_neg hcond, if_pos hst]
  · intro hst
    unfold cancelInterview
    rw [hi]
    dsimp only
    rw [if_neg hcond, if_neg (by simp [hst])]
  · unfold cancelInterview
    rw [hi]
    dsimp only
    rw [if_neg hcond]
    by_cases hst : i.status ≠ IStatus.scheduled
    · rw [if_pos hst]
    · rw [if_neg hst]
      rfl

/-- C7 amended witness: concrete cancellation on `c7db`; the booked slot is
left untouched. -/
theorem cancelInterview_amended_witness :
    cancelInterview c7db 1 Role.candidate 50 =
      (CancelRes.ok, saveInterview c7db { c7int with status := IStatus.cancelled }) ∧
    (cancelInterview c7db 1 Role.candidate 50).2.slots = c7db.slots := by
  have h := cancelInterview_amended c7db 1 Role.candidate 50 c7int (by decide)
    (Or.inl (by decide))
  exact ⟨h.2.1 (by decide), h.2.2⟩

/-- C9 counterexample: cancelling scheduled interview 50, whose reminder job
is registered, succeeds but leaves the reminder job still scheduled — the
source never invokes `cancelInterviewReminder`. -/
theorem cancelInterview_reminderRemains_counterexample :
    (cancelInterview c9db 1 Role.candidate 50).1 = CancelRes.ok ∧
    (cancelInterview c9db 1 Role.candidate 50).2.reminderJobs = [50] ∧
    ([50] : List Nat) ≠ [] := by
  decide

/-- C9 amended: `cancelInterview` never touches the reminder-job map (the
reminder for a cancelled interview stays scheduled), but the reminder callback
re-reads the interview when it fires and sends nothing when the interview is
cancelled, so no reminder notification is ever sent for a cancelled
interview. -/
theorem cancelInterview_reminder_amended :
    (∀ (db : DB) (userId : Nat) (userRole : Role) (interviewId : Nat),
      (cancelInterview db userId userRole interviewId).2.reminderJobs = db.reminderJobs) ∧
    (∀ (db : DB) (interviewId : Nat) (i : Interview),
      findInterview db interviewId = some i → i.status = IStatus.cancelled →
      (fireInterviewReminder db interviewId).1 = none) := by
  constructor
  · intro db userId userRole interviewId
    unfold cancelInterview
    cases h : findInterview db interviewId with
    | none => rfl
    | some i =>
      dsimp only
      by_cases hc : (i.candidate ≠ userId ∧ userRole ≠ Role.admin)
      · rw [if_pos hc]
      · rw [if_neg hc]
        by_cases hst : i.status ≠ IStatus.scheduled
        · rw [if_pos hst]
        · rw [if_neg hst]
          rfl
  · intro db interviewId i hfind hst
    unfold fireInterviewReminder
    dsimp only
    have hfind2 :
        findInterview
          { db with reminderJobs := db.reminderJobs.filter (fun j => j ≠ interviewId) }
          interviewId = some i := hfind
    rw [hfind2]
    dsimp only
    rw [if_pos hst]

/-- C9 amended witness: concrete runs on `c9db`. -/
theorem cancelInterview_reminder_amended_witness :
    (cancelInterview c9db 1 Role.candidate 50).2.reminderJobs = [50] ∧
    (fireInterviewReminder c9db 51).1 = none := by
  constructor
  · rw [cancelInterview_reminder_amended.1 c9db 1 Role.candidate 50]
    rfl
  · exact cancelInterview_reminder_amended.2 c9db 51 c9cancelled (by decide) (by decide)

/-- C8 counterexample: `createBatchSlots` performs no overlap check — a batch
entry identical in time to interviewer 2's existing slot is created with a 201
answer, leaving two overlapping slots for the same interviewer. -/
theorem createBatchSlots_overlap_counterexample :
    (createBatchSlots c8db 2 Role.interviewer (some InterviewType.DSA)
        [(10000000, 12400000)] 0).1 = BatchRes.created 1 ∧
    ((createBatchSlots c8db 2 Role.interviewer (some InterviewType.DSA)
        [(10000000, 12400000)] 0).2.slots.map
      (fun s => (s.interviewer, s.startTime, s.endTime))) =
      [(2, 10000000, 12400000), (2, 10000000, 12400000)] ∧
    -- the two persisted intervals overlap: start₁ < end₂ and end₁ > start₂
    ((10000000 : Int) < 12400000 ∧ (12400000 : Int) > 10000000) := by
  decide

/-- C8 amended: only single-slot creation (`createInterviewerSlot`) enforces
the no-overlap rule: when the interviewer already owns a slot whose interval
overlaps the requested `[start, endT)` and the request passes the earlier
validations, the call answers the overlap conflict and creates no slot; batch
creation and sheet import perform no such check. -/
theorem createInterviewerSlot_overlap_amended
    (db : DB) (userId : Nat) (userRole : Role) (start endT : Int)
    (itype : InterviewType) (now : Int) (s : Slot)
    (hrole : userRole = Role.interviewer ∨ userRole = Role.admin)
    (hfuture : now ≤ start) (horder : start < endT)
    (hdur40 : itype = InterviewType.DSA → ((endT - start) - 40 * 60000).natAbs ≤ 60000)
    (hdur50 : itype = InterviewType.SystemDesign → ((endT - start) - 50 * 60000).natAbs ≤ 60000)
    (hs : s ∈ db.slots) (hsi : s.interviewer = userId)
    (hov1 : s.startTime < endT) (hov2 : s.endTime > start) :
    createInterviewerSlot db userId userRole (some start) (some endT)
      (some itype) now = (CreateSlotRes.overlap, db) := by
  unfold createInterviewerSlot
  dsimp only
  rw [if_neg (by tauto)]
  rw [if_neg (by omega)]
  rw [if_neg (by omega)]
  rw [if_neg (by rintro ⟨h1, h2⟩; exact absurd h2 (not_lt.mpr (hdur40 h1)))]
  rw [if_neg (by rintro ⟨h1, h2⟩; exact absurd h2 (not_lt.mpr (hdur50 h1)))]
  rw [if_pos (List.any_eq_true.mpr
    ⟨s, hs, by simp only [decide_eq_true_eq]; exact ⟨hsi, hov1, hov2⟩⟩)]

/-- C8 amended witness: requesting interviewer 2's existing interval again
through `createInterviewerSlot` is rejected with the overlap conflict. -/
theorem createInterviewerSlot_overlap_amended_witness :
    createInterviewerSlot c8db 2 Role.interviewer (some 10000000)
      (some 12400000) (some InterviewType.DSA) 0 = (CreateSlotRes.overlap, c8db) :=
  createInterviewerSlot_overlap_amended c8db 2 Role.interviewer 10000000
    12400000 InterviewType.DSA 0 baseSlot (Or.inl rfl) (by decide) (by decide)
    (fun _ => by decide) (fun h => by cases h) (by decide) (by decide)
    (by decide) (by decide)

/-- C2 counterexample: candidate 1 holds non-cancelled interview 50 whose
linked payment 60 is `submitted` (unresolved per the claim), yet both
`bookSlot` variants book slot 100 instead of failing with the pending-payment
error: part_007's gates only on the interview document's own `paymentStatus`
field (here `paid`), and part_008's cannot see the payment's status because
`populate('paymentId')` cannot resolve the ref-less String path, so only a
missing `paymentId` blocks it. -/
theorem bookSlot_pendingGate_counterexample :
    (c2int.status ≠ IStatus.cancelled ∧ c2int.candidate = 1 ∧
      c2int.paymentId = some 60 ∧
      (findPayment c2db 60).map (fun p => p.status) = some PStatus.submitted) ∧
    (bookSlot7 c2db 1 100 "abc" 0).1 = BookRes.booked 300 ∧
    (bookSlot7 c2db 1 100 "abc" 0).2.interviews.length = 2 ∧
    (bookSlot8 c2db 1 100 true 0).1 = BookRes.booked 300 := by
  decide

/-- C2 amended: neither implementation enforces the claimed gate on the
payment record's status.  part_007's `bookSlot` (and `createInterview`) gate
on the interview document's own `paymentStatus` field.  part_008's `bookSlot`
tries to consult the linked payment, but `Interview.paymentId` is a `String`
path with no `ref`, so `populate` leaves the raw string and the status arm of
its filter never fires: it refuses a booking — with the pending-payment error
listing the blocking interviews and no state change — exactly when the
candidate has a non-cancelled interview with no `paymentId` at all; a
non-cancelled interview whose payment is pending, submitted, or rejected does
not block. -/
theorem bookSlot8_pendingGate_amended
    (db : DB) (userId : Nat) (slotId : Nat) (ps : Bool) (now : Int)
    (s : Slot) (t : InterviewType) (pr : Price)
    (hs : findSlot db slotId = some s) (hb : s.isBooked = false)
    (ht : s.interviewType = some t) (hpr : findPrice db t = some pr)
    (i : Interview) (hmem : i ∈ db.interviews) (hc : i.candidate = userId)
    (hnc : i.status ≠ IStatus.cancelled) (hnp : i.paymentId = none) :
    bookSlot8 db userId slotId ps now =
      (BookRes.pendingPayments
        (((db.interviews.filter (fun j => j.candidate = userId ∧ j.status ≠ IStatus.cancelled)).filter
            (fun j => j.paymentId = none)).map (fun j => j.id)), db) := by
  unfold bookSlot8
  rw [hs]
  dsimp only
  rw [if_neg (by simp [hb])]
  rw [ht]
  dsimp only
  rw [hpr]
  dsimp only
  rw [if_neg]
  have hmem2 :
      i ∈ (db.interviews.filter (fun j => j.candidate = userId ∧ j.status ≠ IStatus.cancelled)).filter
        (fun j => j.paymentId = none) := by
    refine List.mem_filter.mpr ⟨List.mem_filter.mpr ⟨hmem, ?_⟩, by simp [hnp]⟩
    simp [hc, hnc]
  intro hempty
  rw [List.isEmpty_iff] at hempty
  rw [hempty] at hmem2
  exact absurd hmem2 (List.not_mem_nil i)

/-- C2 amended witness: on `c2missingDb` (interview 50 has no `paymentId`),
part_008's `bookSlot` blocks candidate 1 and lists interview 50. -/
theorem bookSlot8_pendingGate_amended_witness :
    bookSlot8 c2missingDb 1 100 true 0 =
      (BookRes.pendingPayments
        (((c2missingDb.interviews.filter (fun j => j.candidate = 1 ∧ j.status ≠ IStatus.cancelled)).filter
            (fun j => j.paymentId = none)).map (fun j => j.id)), c2missingDb) :=
  bookSlot8_pendingGate_amended c2missingDb 1 100 true 0 baseSlot
    InterviewType.DSA dsaPrice (by decide) (by decide) (by decide) (by decide)
    c10int (by decide) (by decide) (by decide) (by decide)

/-- C3 counterexample: interview 50's linked payment 60 is `pending` — active
and not rejected — yet a further `createPaymentRequest` call succeeds and
creates a second payment record instead of failing with a duplicate error. -/
theorem createPaymentRequest_duplicate_counterexample :
    (findPayment c5db 60).map (fun p => p.status) = some PStatus.pending ∧
    PStatus.pending ≠ PStatus.rejected ∧
    (createPaymentRequest c5db 1 50).1 = CreatePayReqRes.ok 300 1000 ∧
    (createPaymentRequest c5db 1 50).2.payments.length = 2 := by
  decide

/-- C3 amended: `createPaymentRequest` refuses a second payment only when the
interview's linked payment is already `verified` ("Payment already
completed"); when the linked payment is in any other state (pending,
submitted, rejected) the call succeeds and appends a fresh payment record,
repointing the interview at it. -/
theorem createPaymentRequest_amended
    (db : DB) (userId : Nat) (interviewId : Nat) (i : Interview) (pid : Nat)
    (p : Payment)
    (hi : findInterview db interviewId = some i)
    (hc : i.candidate = userId)
    (hpid : i.paymentId = some pid)
    (hp : findPayment db pid = some p) :
    (p.status = PStatus.verified →
      createPaymentRequest db userId interviewId = (CreatePayReqRes.alreadyCompleted, db)) ∧
    (p.status ≠ PStatus.verified →
      ∀ intv, findUser db i.interviewer = some intv →
      ∀ upi qr, intv.upiId = some upi → intv.qrCodeUrl = some qr →
      ∀ t pr, i.interviewType = some t → findPrice db t = some pr →
      (createPaymentRequest db userId interviewId).1 =
        CreatePayReqRes.ok db.nextId pr.price ∧
      (createPaymentRequest db userId interviewId).2.payments.length =
        db.payments.length + 1) := by
  constructor
  · intro hv
    unfold createPaymentRequest
    rw [hi]
    dsimp only
    rw [if_neg (by simp [hc]), hpid]
    dsimp only
    rw [hp]
    dsimp only
    rw [if_pos (by simp [hv])]
  · intro hnv intv hintv upi qr hupi hqr t pr ht hpr
    unfold createPaymentRequest
    rw [hi]
    dsimp only
    rw [if_neg (by simp [hc]), hpid]
    dsimp only
    rw [hp]
    dsimp only
    rw [if_neg (by simp [hnv]), hintv]
    dsimp only
    rw [if_neg (by simp [hupi, hqr]), ht]
    dsimp only
    rw [hpr]
    dsimp only
    exact ⟨rfl, by simp [insertPayment, saveInterview]⟩

/-- C3 amended witness: on `c5db` (payment 60 pending), a second call
appends a new payment record. -/
theorem createPaymentRequest_amended_witness :
    (createPaymentRequest c5db 1 50).1 = CreatePayReqRes.ok 300 1000 ∧
    (createPaymentRequest c5db 1 50).2.payments.length = c5db.payments.length + 1 :=
  (createPaymentRequest_amended c5db 1 50 c5int 60 c5pay (by decide) (by decide)
      (by decide) (by decide)).2 (by decide) intvUser (by decide) "intv@upi"
      "qr.png" (by decide) (by decide) InterviewType.DSA dsaPrice (by decide)
      (by decide)

/-! ### Helper lemmas about the storage operations -/

/-- Overwriting, in a list keyed by `f`, every element that carries the key of
the element previously found at `k` makes the replacement the element found at
`k`. -/
theorem find?_map_overwrite {α : Type} (f : α → Nat) (k : Nat) (q : α) :
    ∀ (l : List α) (p : α),
      l.find? (fun x => f x = k) = some p → f q = f p →
      (l.map (fun x => if f x = f q then q else x)).find? (fun x => f x = k) = some q
  | [], p, h, _ => by simp at h
  | a :: t, p, h, hq => by
    by_cases ha : f a = k
    · rw [List.find?_cons_of_pos _ (by simpa using ha)] at h
      injection h with h
      subst h
      rw [List.map_cons, if_pos hq.symm]
      exact List.find?_cons_of_pos _ (by simpa using hq.trans ha)
    · rw [List.find?_cons_of_neg _ (by simpa using ha)] at h
      have hpk : f p = k := by simpa using List.find?_some h
      have hfa : ¬(f a = f q) := by rw [hq, hpk]; exact ha
      rw [List.map_cons, if_neg hfa, List.find?_cons_of_neg _ (by simpa using ha)]
      exact find?_map_overwrite f k q t p h hq

/-- `savePayment` replaces exactly the looked-up payment. -/
theorem findPayment_savePayment (db : DB) (pid : Nat) (p q : Payment)
    (h : findPayment db pid = some p) (hq : q.id = p.id) :
    findPayment (savePayment db q) pid = some q := by
  unfold findPayment at h
  unfold findPayment savePayment
  exact find?_map_overwrite (fun x => x.id) pid q db.payments p h hq

/-- `saveSlot` does not touch the payments collection. -/
theorem findPayment_saveSlot (db : DB) (s : Slot) (pid : Nat) :
    findPayment (saveSlot db s) pid = findPayment db pid := rfl

/-- `insertInterview` does not touch the payments collection. -/
theorem findPayment_insertInterview (db : DB) (mk : Nat → Interview) (pid : Nat) :
    findPayment (insertInterview db mk).2 pid = findPayment db pid := rfl

/-- `scheduleInterviewReminder` only touches the reminder-job map. -/
theorem scheduleInterviewReminder_payments (db : DB) (iid : Nat) (now : Int) :
    (scheduleInterviewReminder db iid now).payments = db.payments := by
  unfold scheduleInterviewReminder
  split
  · rfl
  · split
    · rfl
    · dsimp only
      split <;> rfl

/-- `scheduleInterviewReminder` only touches the reminder-job map. -/
theorem scheduleInterviewReminder_interviews (db : DB) (iid : Nat) (now : Int) :
    (scheduleInterviewReminder db iid now).interviews = db.interviews := by
  unfold scheduleInterviewReminder
  split
  · rfl
  · split
    · rfl
    · dsimp only
      split <;> rfl

/-- `scheduleInterviewReminder` only touches the reminder-job map. -/
theorem scheduleInterviewReminder_slots (db : DB) (iid : Nat) (now : Int) :
    (scheduleInterviewReminder db iid now).slots = db.slots := by
  unfold scheduleInterviewReminder
  split
  · rfl
  · split
    · rfl
    · dsimp only
      split <;> rfl

/-- Payment lookup passes through `scheduleInterviewReminder`. -/
theorem findPayment_scheduleInterviewReminder (db : DB) (iid : Nat) (now : Int)
    (pid : Nat) :
    findPayment (scheduleInterviewReminder db iid now) pid = findPayment db pid := by
  unfold findPayment
  rw [scheduleInterviewReminder_payments]

/-- Lookup of a payment after the write pipeline of
`submitPreBookingPayment`: save the submitted payment, insert the interview,
save the re-linked payment. -/
theorem findPayment_pipeline (db : DB) (pid : Nat) (p q1 : Payment)
    (mk : Nat → Interview) (q2 : Payment)
    (h : findPayment db pid = some p)
    (h1 : q1.id = p.id) (h2 : q2.id = q1.id) :
    findPayment (savePayment (insertInterview (savePayment db q1) mk).2 q2) pid =
      some q2 := by
  apply findPayment_savePayment _ _ q1 _ _ h2
  rw [findPayment_insertInterview]
  exact findPayment_savePayment _ _ p q1 h h1

/-- C6 counterexample: `submitPaymentProof` succeeds on payment 60 but leaves
the payment's status `pending`, not `submitted` (only the redaction part of
the claim holds: the stored id is the last 4 characters). -/
theorem submitPaymentProof_status_counterexample :
    (submitPaymentProof c5db 1 60 "ABCDE12345" (some "shot.png")).1 =
      SubmitProofRes.ok 60 PStatus.pending ∧
    ((submitPaymentProof c5db 1 60 "ABCDE12345" (some "shot.png")).2.payments.find?
        (fun p => p.id = 60)).map (fun p => (p.status, p.transactionId)) =
      some (PStatus.pending, some "2345") ∧
    PStatus.pending ≠ PStatus.submitted := by
  decide

/-- C6 amended: both proof-submission handlers store only the redacted
transaction id (the last 4 characters whenever the supplied id is longer than
4, so the full id is never stored); on success `submitPreBookingPayment`
leaves the payment `submitted`, but `submitPaymentProof` leaves it `pending`
rather than `submitted`. -/
theorem submitProof_amended
    (db : DB) (userId : Nat) (paymentId : Nat) (tid url : String)
    (p : Payment) (iid : Nat) (i : Interview)
    (hp : findPayment db paymentId = some p) (hpi : p.interview = some iid)
    (hi : findInterview db iid = some i) (hc : i.candidate = userId)
    (db2 : DB) (u2 pid2 : Nat) (tid2 url2 : String) (sid2 : Nat) (now : Int)
    (q : Payment) (s2 : Slot)
    (hq : findPayment db2 pid2 = some q) (hqb : q.paidBy = u2)
    (hs2 : findSlot db2 sid2 = some s2) (hsb : s2.isBooked = false) :
    submitPaymentProof db userId paymentId tid (some url) =
      (SubmitProofRes.ok p.id PStatus.pending,
       savePayment db { p with
         transactionId := some (redactTransactionId tid),
         transactionScreenshotUrl := some url,
         status := PStatus.pending }) ∧
    (findPayment (submitPreBookingPayment db2 u2 pid2 tid2 sid2 (some url2) now).2
        pid2).map (fun x => (x.status, x.transactionId)) =
      some (PStatus.submitted, some (redactTransactionId tid2)) ∧
    (∀ t : String, 4 < t.length → (redactTransactionId t).length = 4) := by
  refine ⟨?_, ?_, ?_⟩
  · unfold submitPaymentProof
    rw [hp]
    dsimp only
    rw [hpi]
    dsimp only
    rw [hi]
    dsimp only
    rw [if_neg (by simp [hc])]
  · unfold submitPreBookingPayment submitPreBookingPaymentCore
    rw [hq]
    dsimp only
    rw [if_neg (by simp [hqb]), hs2]
    dsimp only
    rw [if_neg (by simp [hsb])]
    dsimp only
    rw [findPayment_scheduleInterviewReminder, findPayment_saveSlot,
      findPayment_pipeline _ _ _ _ _ _ hq _ _]
    · rfl
    · rfl
    · rfl
  · intro t ht
    unfold redactTransactionId
    rw [if_pos ht]
    show ((t.toList.reverse.take 4).reverse).length = 4
    rw [List.length_reverse, List.length_take, List.length_reverse]
    have hlen : t.toList.length = t.length := rfl
    rw [hlen]
    omega

/-- C6 amended witness: concrete runs of both proof-submission handlers. -/
theorem submitProof_amended_witness :
    submitPaymentProof c5db 1 60 "ABCDE12345" (some "shot.png") =
      (SubmitProofRes.ok 60 PStatus.pending,
       savePayment c5db { c5pay with
         transactionId := some (redactTransactionId "ABCDE12345"),
         transactionScreenshotUrl := some "shot.png",
         status := PStatus.pending }) ∧
    (findPayment (submitPreBookingPayment c1db 1 10 "TX111111" 100
        (some "u1.png") 0).2 10).map (fun x => (x.status, x.transactionId)) =
      some (PStatus.submitted, some (redactTransactionId "TX111111")) ∧
    (∀ t : String, 4 < t.length → (redactTransactionId t).length = 4) :=
  submitProof_amended c5db 1 60 "ABCDE12345" "shot.png" c5pay 50 c5int
    (by decide) (by decide) (by decide) (by decide) c1db 1 10 "TX111111"
    "u1.png" 100 0 c1pay1 baseSlot (by decide) (by decide) (by decide)
    (by decide)

/-- C1 counterexample: while candidate 1's `submitPreBookingPayment` is
suspended at its upload `await`, candidate 4's request books slot 100; the
resumed request nevertheless reports success and persists its interview (id
201), overwriting the slot's booking — both scheduled interviews remain
persisted and the slot ends up referencing candidate 1's interview 201
instead of candidate 4's interview 200. -/
theorem submitPreBookingPayment_race_counterexample :
    (findSlot (c1Interfere c1db) 100).map (fun s => (s.isBooked, s.interview)) =
      some (true, some 200) ∧
    (submitPreBookingPaymentCore c1db c1Interfere 1 10 "TX111111" 100
        (some "u1.png") 0).1 = SubmitPreBookRes.ok 201 ∧
    ((submitPreBookingPaymentCore c1db c1Interfere 1 10 "TX111111" 100
        (some "u1.png") 0).2.interviews.map
      (fun i => (i.id, i.candidate, i.status))) =
      [(200, 4, IStatus.scheduled), (201, 1, IStatus.scheduled)] ∧
    (findSlot (submitPreBookingPaymentCore c1db c1Interfere 1 10 "TX111111" 100
        (some "u1.png") 0).2 100).map (fun s => (s.isBooked, s.interview)) =
      some (true, some 201) := by
  decide

/-- C1 amended: under a sequential (non-interleaved) execution, a slot that is
already booked at the initial check makes `submitPreBookingPayment` fail as a
whole with no state change; the source performs no re-check or conditional
update at reservation time, so only the check-time bookedness is protected —
an interleaved booking after the check is overwritten rather than detected. -/
theorem submitPreBookingPayment_sequential_amended
    (db : DB) (u : Nat) (pid : Nat) (t : String) (sid : Nat)
    (file : Option String) (now : Int) (s : Slot)
    (hs : findSlot db sid = some s) (hb : s.isBooked = true) :
    (submitPreBookingPayment db u pid t sid file now).2 = db ∧
    ∀ iid, (submitPreBookingPayment db u pid t sid file now).1 ≠
      SubmitPreBookRes.ok iid := by
  unfold submitPreBookingPayment submitPreBookingPaymentCore
  cases hp : findPayment db pid with
  | none => exact ⟨rfl, by intro iid h; cases h⟩
  | some q =>
    dsimp only
    by_cases hpb : q.paidBy ≠ u
    · rw [if_pos hpb]
      exact ⟨rfl, by intro iid h; cases h⟩
    · rw [if_neg hpb, hs]
      dsimp only
      rw [if_pos hb]
      exact ⟨rfl, by intro iid h; cases h⟩

/-- C1 amended witness: with slot 100 already booked, the call changes
nothing and does not succeed. -/
theorem submitPreBookingPayment_sequential_amended_witness :
    (submitPreBookingPayment c1BookedDb 1 10 "TX111111" 100 (some "u1.png") 0).2 =
      c1BookedDb ∧
    ∀ iid, (submitPreBookingPayment c1BookedDb 1 10 "TX111111" 100
      (some "u1.png") 0).1 ≠ SubmitPreBookRes.ok iid :=
  submitPreBookingPayment_sequential_amended c1BookedDb 1 10 "TX111111" 100
    (some "u1.png") 0 { baseSlot with isBooked := true } (by decide) (by decide)

/-- C4: on a fresh database holding one unbooked slot whose interviewer has
UPI details and whose type is priced, `initiatePrebookingPayment` followed by
`completePrebookingPayment` (slot still available) yields exactly one
interview with status `scheduled`, exactly one payment with status
`submitted`, `isPreBooking = false`, its interview reference set (and its
`slotId` retained), and the slot booked and referencing that interview. -/
theorem prebooking_roundTrip
    (cand intv : User) (s : Slot) (pr : Price) (t : InterviewType) (n : Nat)
    (upi qr tid url : String) (now : Int)
    (hup : intv.upiId = some upi) (hqr : intv.qrCodeUrl = some qr)
    (hsi : s.interviewer = intv.id) (hsb : s.isBooked = false)
    (hst : s.interviewType = some t) (hpt : pr.interviewType = t) :
    (createPreBookingPayment (roundTripDB cand intv s pr n) cand.id s.id).1 =
      CreatePreBookRes.ok n pr.price ∧
    (submitPreBookingPayment
        (createPreBookingPayment (roundTripDB cand intv s pr n) cand.id s.id).2
        cand.id n tid s.id (some url) now).1 = SubmitPreBookRes.ok (n + 1) ∧
    (submitPreBookingPayment
        (createPreBookingPayment (roundTripDB cand intv s pr n) cand.id s.id).2
        cand.id n tid s.id (some url) now).2.interviews.map
      (fun i => (i.id, i.status)) = [(n + 1, IStatus.scheduled)] ∧
    (submitPreBookingPayment
        (createPreBookingPayment (roundTripDB cand intv s pr n) cand.id s.id).2
        cand.id n tid s.id (some url) now).2.payments.map
      (fun p => (p.id, p.status, p.isPreBooking, p.interview, p.slotId)) =
      [(n, PStatus.submitted, false, some (n + 1), some s.id)] ∧
    (submitPreBookingPayment
        (createPreBookingPayment (roundTripDB cand intv s pr n) cand.id s.id).2
        cand.id n tid s.id (some url) now).2.slots.map
      (fun x => (x.id, x.isBooked, x.interview)) =
      [(s.id, true, some (n + 1))] := by
  have hfs : findSlot (roundTripDB cand intv s pr n) s.id = some s := by
    unfold findSlot roundTripDB
    exact List.find?_cons_of_pos _ (by simp)
  have hfu : findUser (roundTripDB cand intv s pr n) s.interviewer = some intv := by
    unfold findUser roundTripDB
    rw [hsi]
    exact List.find?_cons_of_pos _ (by simp)
  have hfp : findPrice (roundTripDB cand intv s pr n) t = some pr := by
    unfold findPrice roundTripDB
    exact List.find?_cons_of_pos _ (by simp [hpt])
  have h0 : createPreBookingPayment (roundTripDB cand intv s pr n) cand.id s.id =
      (CreatePreBookRes.ok n pr.price, roundTripDB1 cand intv s pr n) := by
    unfold createPreBookingPayment
    rw [hfs]
    dsimp only
    rw [if_neg (by simp [hsb]), hfu]
    dsimp only
    rw [if_neg (by simp [hup, hqr]), hst]
    dsimp only
    rw [hfp]
    dsimp only
    unfold insertPayment roundTripDB roundTripDB1 roundTripPrePayment
    dsimp only
    rfl
  have hfp1 : findPayment (roundTripDB1 cand intv s pr n) n =
      some (roundTripPrePayment cand intv s pr n) := by
    unfold findPayment roundTripDB1
    exact List.find?_cons_of_pos _ (by simp [roundTripPrePayment])
  have hfs1 : findSlot (roundTripDB1 cand intv s pr n) s.id = some s := by
    unfold findSlot roundTripDB1
    exact List.find?_cons_of_pos _ (by simp)
  rw [h0]
  refine ⟨rfl, ?_⟩
  unfold submitPreBookingPayment submitPreBookingPaymentCore
  dsimp only
  rw [hfp1]
  dsimp only
  rw [if_neg (by simp [roundTripPrePayment]), hfs1]
  dsimp only
  rw [if_neg (by simp [hsb])]
  dsimp only
  simp [insertInterview, insertPayment, savePayment, saveSlot,
    scheduleInterviewReminder_interviews, scheduleInterviewReminder_payments,
    scheduleInterviewReminder_slots, roundTripDB1, roundTripPrePayment]

/-- C4 witness: the round trip on a concrete fresh database. -/
theorem prebooking_roundTrip_witness :
    (createPreBookingPayment (roundTripDB candUser intvUser baseSlot dsaPrice 300)
        1 100).1 = CreatePreBookRes.ok 300 1000 ∧
    (submitPreBookingPayment
        (createPreBookingPayment (roundTripDB candUser intvUser baseSlot dsaPrice 300)
          1 100).2 1 300 "TX777777" 100 (some "u.png") 0).1 =
      SubmitPreBookRes.ok 301 ∧
    (submitPreBookingPayment
        (createPreBookingPayment (roundTripDB candUser intvUser baseSlot dsaPrice 300)
          1 100).2 1 300 "TX777777" 100 (some "u.png") 0).2.interviews.map
      (fun i => (i.id, i.status)) = [(301, IStatus.scheduled)] ∧
    (submitPreBookingPayment
        (createPreBookingPayment (roundTripDB candUser intvUser baseSlot dsaPrice 300)
          1 100).2 1 300 "TX777777" 100 (some "u.png") 0).2.payments.map
      (fun p => (p.id, p.status, p.isPreBooking, p.interview, p.slotId)) =
      [(300, PStatus.submitted, false, some 301, some 100)] ∧
    (submitPreBookingPayment
        (createPreBookingPayment (roundTripDB candUser intvUser baseSlot dsaPrice 300)
          1 100).2 1 300 "TX777777" 100 (some "u.png") 0).2.slots.map
      (fun x => (x.id, x.isBooked, x.interview)) = [(100, true, some 301)] :=
  prebooking_roundTrip candUser intvUser baseSlot dsaPrice InterviewType.DSA 300
    "intv@upi" "qr.png" "TX777777" "u.png" 0 (by decide) (by decide) (by decide)
    (by decide) (by decide) (by decide)

end S30
